import Mathlib

/-!
Verification of the charting-app backend (Next.js API routes).

The TypeScript request handlers are shallowly embedded as pure Lean
functions.  Database interaction is modelled by passing the values the
code would read from the database (column data types from
INFORMATION_SCHEMA, distinct counts, result rows) as explicit arguments,
and the semantics of the specific generated SQL shapes (GROUP BY /
ORDER BY / LIMIT over an in-memory table) as executable evaluators.
JavaScript numbers are modelled as rationals, JS `null`/`undefined` via
`Option`, and the generated SQL text is reproduced character for
character from the template literals in the source.
-/

namespace ChartingApp

/-- Substring occurrence over character lists (an occurrence starting at
any position). -/
def charsContains : List Char → List Char → Bool
  | [], pat => pat.isEmpty
  | s@(_ :: rest), pat => pat.isPrefixOf s || charsContains rest pat

/-- JS `String.prototype.includes`. -/
def strIncludes (s pat : String) : Bool :=
  charsContains s.data pat.data

/-- JS `String.prototype.toLowerCase` (ASCII, which is all the code
compares against). -/
def strToLower (s : String) : String :=
  String.mk (s.data.map Char.toLower)

/-- JS `Array.prototype.join` with a separator. -/
def joinSep (sep : String) : List String → String
  | [] => ""
  | [x] => x
  | x :: xs => x ++ sep ++ joinSep sep xs

/-- JS `String.prototype.split(',')`: the comma-separated pieces; the
empty string yields `[""]`, a trailing comma an empty last piece. -/
def splitCommaChars : List Char → List (List Char)
  | [] => [[]]
  | c :: rest =>
      if c = ',' then [] :: splitCommaChars rest
      else
        match splitCommaChars rest with
        | [] => [[c]]
        | g :: gs => (c :: g) :: gs

/-- JS `yAxis.split(',')` on strings. -/
def splitComma (s : String) : List String :=
  (splitCommaChars s.data).map String.mk

/-- Lexicographic order on character lists (code-point order), the model
of SQL `ORDER BY` on string values. -/
def charsLe : List Char → List Char → Bool
  | [], _ => true
  | _ :: _, [] => false
  | a :: as, b :: bs =>
      if a.toNat < b.toNat then true
      else if b.toNat < a.toNat then false
      else charsLe as bs

/-- Lexicographic `charsLe` on strings. -/
def strLe (a b : String) : Bool :=
  charsLe a.data b.data

/-- One character of the class `[a-zA-Z0-9_]` used by the identifier
regular expression in `route.ts`. -/
def isWordChar (c : Char) : Bool :=
  c.isAlphanum || c == '_'

/-- Source `isValidIdentifier` from `src/app/api/chart-data/route.ts`:
`/^[a-zA-Z0-9_]+$/.test(str)` — nonempty and every character in the
class. -/
def isValidIdentifier (str : String) : Bool :=
  str.length > 0 && str.data.all isWordChar

/-- Source `getAggregationFunction` from `src/app/api/chart-data/route.ts`.
The `dataType` argument is received but never inspected, exactly as in
the source. -/
def getAggregationFunction (aggregation dataType : String) : String :=
  if aggregation = "none" then ""
  else if aggregation = "sum" then "SUM"
  else if aggregation = "avg" then "AVG"
  else if aggregation = "count" then "COUNT"
  else ""

/-- Source `buildChartQuery` from `src/app/api/chart-data/route.ts`.
`columnTypes` stands for the rows the INFORMATION_SCHEMA query returns
(pairs COLUMN_NAME, DATA_TYPE).  `yAxes[0]` on an empty list is JS
`undefined`, which a template literal renders as the string
"undefined". -/
def buildChartQuery (columnTypes : List (String × String))
    (table xAxis : String) (yAxes : List String)
    (chartType aggregation : String) : String :=
  if chartType = "pie" then
    let aggFunc := getAggregationFunction aggregation "number"
    "\n      SELECT \n        COALESCE(" ++ xAxis ++ ", \x27Unknown\x27) as x,\n        "
      ++ aggFunc ++ "(" ++ yAxes.headD "undefined" ++ ") as y\n      FROM "
      ++ table ++ "\n      WHERE " ++ xAxis ++ " IS NOT NULL\n      GROUP BY "
      ++ xAxis ++ "\n      ORDER BY y DESC\n    "
  else
    let yAxisQueries := yAxes.map (fun y =>
      let dataType := (columnTypes.find? (fun t => t.1 == y)).map Prod.snd
      let aggFunc := getAggregationFunction aggregation (dataType.getD "")
      (if aggFunc ≠ "" then aggFunc ++ "(" ++ y ++ ")" else y) ++ " as \"" ++ y ++ "\"")
    "\n    SELECT \n      " ++ xAxis ++ " as x,\n      "
      ++ joinSep ", " yAxisQueries ++ "\n    FROM " ++ table ++ "\n    "
      ++ (if aggregation ≠ "none" then "GROUP BY " ++ xAxis else "")
      ++ "\n    ORDER BY " ++ xAxis ++ "\n  "

/-- Source constant `MAX_DATA_POINTS` from `src/app/api/chart-data/route.ts`. -/
def MAX_DATA_POINTS : Nat := 50

/-- Source `getColumnType` from `src/app/api/chart-data/route.ts`:
the DATA_TYPE of `result[0]`, with empty-string fallback, lowercased;
the argument is the DATA_TYPE the database returned (`none` when the
column does not exist). -/
def getColumnType (dbDataType : Option String) : String :=
  strToLower (dbDataType.getD "")

/-- Source `isNumericType` from `src/app/api/chart-data/route.ts`. -/
def isNumericType (dataType : String) : Bool :=
  ["int", "bigint", "decimal", "float", "double", "numeric"].any
    (fun type => strIncludes dataType type)

/-- Source `isTemporalType` from `src/app/api/chart-data/route.ts`. -/
def isTemporalType (dataType : String) : Bool :=
  ["date", "time", "year", "timestamp"].any (fun type => strIncludes dataType type)

/-- The y-select expression shared by the three bucketing templates in
`buildAggregatedQuery`:
`isNumericType(yAxisType) ? AVG(yAxis) : COUNT(*)`. -/
def ySelectExpr (yAxisType yAxis : String) : String :=
  if isNumericType yAxisType then "AVG(`" ++ yAxis ++ "`)" else "COUNT(*)"

/-- The temporal branch template of `buildAggregatedQuery`
(route.ts lines 226-233); `fmtLit` is the DATE_FORMAT literal chosen
from the distinct count. -/
def temporalBucketQuery (table xAxis yAxis yAxisType fmtLit : String) : String :=
  "\n      SELECT \n        DATE_FORMAT(`" ++ xAxis ++ "`, " ++ fmtLit
    ++ ") as x,\n        " ++ ySelectExpr yAxisType yAxis
    ++ " as y\n      FROM `" ++ table
    ++ "`\n      GROUP BY x\n      ORDER BY x\n    "

/-- The numeric-binning branch template of `buildAggregatedQuery`
(route.ts lines 239-250). -/
def numericBinQuery (table xAxis yAxis yAxisType : String) (binSize : Nat) : String :=
  let b := toString binSize
  "\n      SELECT \n        CONCAT(\n          FLOOR(`" ++ xAxis ++ "` / " ++ b
    ++ ") * " ++ b ++ ",\n          \x27 - \x27,\n          FLOOR(`" ++ xAxis
    ++ "` / " ++ b ++ ") * " ++ b ++ " + " ++ b ++ "\n        ) as x,\n        "
    ++ ySelectExpr yAxisType yAxis ++ " as y\n      FROM `" ++ table
    ++ "`\n      GROUP BY FLOOR(`" ++ xAxis ++ "` / " ++ b
    ++ ")\n      ORDER BY FLOOR(`" ++ xAxis ++ "` / " ++ b ++ ")\n    "

/-- The categorical branch template of `buildAggregatedQuery`
(route.ts lines 254-266): top `MAX_DATA_POINTS` groups by size. -/
def categoricalTopQuery (table xAxis yAxis yAxisType : String) : String :=
  "\n    SELECT x, y FROM (\n      SELECT \n        `" ++ xAxis
    ++ "` as x,\n        " ++ ySelectExpr yAxisType yAxis
    ++ " as y,\n        COUNT(*) as group_size\n      FROM `" ++ table
    ++ "`\n      GROUP BY `" ++ xAxis
    ++ "`\n      ORDER BY group_size DESC\n      LIMIT "
    ++ toString MAX_DATA_POINTS ++ "\n    ) t\n    ORDER BY x\n  "

/-- Source `buildAggregatedQuery` from `src/app/api/chart-data/route.ts`.
`xTypeDb`/`yTypeDb` are the DATA_TYPEs the two `getColumnType` database
calls return, `count` is the result of
`SELECT COUNT(DISTINCT xAxis) FROM table` (`result[0]?.count || 0`),
and `columnTypes` is the INFORMATION_SCHEMA result consumed by the
inner `buildChartQuery` call. -/
def buildAggregatedQuery (columnTypes : List (String × String))
    (xTypeDb yTypeDb : Option String) (count : Nat)
    (table xAxis yAxis chartType : String) : String :=
  let xAxisType := getColumnType xTypeDb
  let yAxisType := getColumnType yTypeDb
  if count ≤ MAX_DATA_POINTS then
    buildChartQuery columnTypes table xAxis [yAxis] chartType "none"
  else if isTemporalType xAxisType then
    let interval := if count > 365 then "MONTH" else "DAY"
    temporalBucketQuery table xAxis yAxis yAxisType
      (if interval = "MONTH" then "\x27%Y-%m\x27" else "\x27%Y-%m-%d\x27")
  else if isNumericType xAxisType then
    let binSize := (count + MAX_DATA_POINTS - 1) / MAX_DATA_POINTS
    numericBinQuery table xAxis yAxis yAxisType binSize
  else
    categoricalTopQuery table xAxis yAxis yAxisType

/-! ## Orderings used by the generated SQL (ORDER BY clauses) -/

/-- Ordering `ORDER BY group_size DESC` of the categorical bucket query. -/
def bySizeDesc (a b : String × ℚ × Nat) : Prop := b.2.2 ≤ a.2.2

instance : DecidableRel bySizeDesc := fun a b => inferInstanceAs (Decidable (b.2.2 ≤ a.2.2))

/-- The outer `ORDER BY x` of the categorical bucket query. -/
def byXAsc (a b : String × ℚ) : Prop := strLe a.1 b.1 = true

instance : DecidableRel byXAsc := fun a b => inferInstanceAs (Decidable (strLe a.1 b.1 = true))

/-- The JS comparator `(a, b) => b - a` of `transformPieChartData`:
descending by aggregated value. -/
def byValDesc (a b : String × ℚ) : Prop := b.2 ≤ a.2

instance : DecidableRel byValDesc := fun a b => inferInstanceAs (Decidable (b.2 ≤ a.2))

/-- Ordering `ORDER BY count DESC, value ASC` of the distinct-values query. -/
def byCountValue (a b : String × Nat) : Prop :=
  b.2 < a.2 ∨ (a.2 = b.2 ∧ strLe a.1 b.1 = true)

instance : DecidableRel byCountValue :=
  fun a b => inferInstanceAs (Decidable (b.2 < a.2 ∨ (a.2 = b.2 ∧ strLe a.1 b.1 = true)))

/-! ## Evaluator of the categorical bucket query (C2)

`categoricalTopQuery` runs over the table's `(xAxis, yAxis)` column pair,
modelled as a list of rows.  `avg` records whether the y-axis column is
numeric (`AVG(y)`), otherwise `COUNT(*)` is selected. -/

/-- The distinct x values, in first-appearance order (the GROUP BY keys). -/
def categories (rows : List (String × ℚ)) : List String :=
  (rows.map Prod.fst).dedup

/-- Row count `COUNT(*)` of one x-group. -/
def groupSize (rows : List (String × ℚ)) (k : String) : Nat :=
  (rows.filter (fun r => r.1 == k)).length

/-- The selected y value of one x-group: `AVG(y)` or `COUNT(*)`. -/
def groupY (avg : Bool) (rows : List (String × ℚ)) (k : String) : ℚ :=
  let ys := (rows.filter (fun r => r.1 == k)).map Prod.snd
  if avg then ys.sum / (ys.length : ℚ) else (ys.length : ℚ)

/-- The inner grouped subquery: one row `(x, y, group_size)` per distinct x. -/
def groupAgg (avg : Bool) (rows : List (String × ℚ)) : List (String × ℚ × Nat) :=
  (categories rows).map (fun k => (k, groupY avg rows k, groupSize rows k))

/-- Evaluation of `categoricalTopQuery`: group, order by `group_size DESC`,
`LIMIT MAX_DATA_POINTS`, project `(x, y)`, order by `x`. -/
def categoricalBucketEval (avg : Bool) (rows : List (String × ℚ)) : List (String × ℚ) :=
  let sorted := List.insertionSort bySizeDesc (groupAgg avg rows)
  let limited := sorted.take MAX_DATA_POINTS
  List.insertionSort byXAsc (limited.map (fun g => (g.1, g.2.1)))

/-! ## Evaluator of the numeric binning query (C3) -/

/-- The distinct x values of a numeric column (`COUNT(DISTINCT x)` counts
these). -/
def distinctXs (rows : List (Int × ℚ)) : List Int :=
  (rows.map Prod.fst).dedup

/-- The `GROUP BY FLOOR(x / binSize)` keys produced by `numericBinQuery`:
one result row per distinct floor quotient. -/
def numericBinGroups (binSize : Int) (rows : List (Int × ℚ)) : List Int :=
  (rows.map (fun r => Int.fdiv r.1 binSize)).dedup

/-! ## Distinct-values endpoint (C7), from the unnamed
`distinct-values` route file -/

/-- The non-NULL values of the requested column
(the `WHERE column IS NOT NULL` filter). -/
def nonNullValues (rows : List (Option String)) : List String :=
  rows.filterMap id

/-- Distinct count `COUNT(DISTINCT column)`: NULLs are not counted. -/
def sqlDistinctCount (rows : List (Option String)) : Nat :=
  (nonNullValues rows).dedup.length

/-- The grouped `(value, COUNT(*))` rows of the distinct-values query. -/
def valueCounts (rows : List (Option String)) : List (String × Nat) :=
  (nonNullValues rows).dedup.map
    (fun v => (v, ((nonNullValues rows).filter (fun w => w == v)).length))

/-- Evaluation of the distinct-values query:
`GROUP BY column ORDER BY count DESC, value ASC LIMIT 1000`. -/
def distinctQueryEval (rows : List (Option String)) : List (String × Nat) :=
  (List.insertionSort byCountValue (valueCounts rows)).take 1000

/-- The two response shapes of the distinct-values endpoint. -/
inductive DistinctResult where
  | idColumn (uniquenessRatio : ℚ)
  | valueList (values : List (String × Nat)) (total : Nat)
deriving DecidableEq

/-- The distinct-values `GET` handler after parameter validation, over the
requested column's values.  `total_count` is `COUNT(*)`, `distinct_count`
is `COUNT(DISTINCT column)`, and the ID-column test is
`uniquenessRatio > 0.95`. -/
def distinctValuesGET (rows : List (Option String)) : DistinctResult :=
  let total_count := rows.length
  let distinct_count := sqlDistinctCount rows
  let uniquenessRatio : ℚ := mkRat distinct_count total_count
  if mkRat 95 100 < uniquenessRatio then
    .idColumn uniquenessRatio
  else
    .valueList (distinctQueryEval rows) distinct_count

/-! ## The chart-data GET handler (C6) -/

/-- Source constant `VALID_CHART_TYPES` from `src/app/api/chart-data/route.ts`. -/
def VALID_CHART_TYPES : List String := ["bar", "line", "pie", "histogram"]

/-- Source `isValidChartType` from `src/app/api/chart-data/route.ts`. -/
def isValidChartType (value : String) : Bool :=
  VALID_CHART_TYPES.contains value

/-- Source `isValidAggregation` from `src/app/api/chart-data/route.ts`. -/
def isValidAggregation (value : String) : Bool :=
  ["none", "sum", "avg", "count"].contains value

/-- JS `a || d` on a nullable string: `null`, `undefined` and `""` are
falsy. -/
def jsOr (v : Option String) (d : String) : String :=
  match v with
  | none => d
  | some s => if s = "" then d else s

/-- Outcome of the chart-data `GET` handler's validation pipeline: one of
the 400 responses, or the `ok` path carrying the identifiers that get
interpolated into the SQL query it builds. -/
inductive ChartDataResult where
  | missingParams
  | invalidChartType
  | invalidAggregation
  | invalidIdentifier
  | ok (table xAxis : String) (yAxes : List String) (query : String)
deriving DecidableEq

/-- The `GET` handler of `src/app/api/chart-data/route.ts` up to query
construction.  Each `Option String` is a `searchParams.get` result;
`columnTypes` is the INFORMATION_SCHEMA data used by `buildChartQuery`. -/
def chartDataGET (columnTypes : List (String × String))
    (table xAxis yAxis chartType aggregation : Option String) : ChartDataResult :=
  let requestedChartType := jsOr chartType ""
  let requestedAggregation := jsOr aggregation "none"
  let tableS := table.getD ""
  let xAxisS := xAxis.getD ""
  let yAxisS := yAxis.getD ""
  if tableS = "" ∨ xAxisS = "" ∨ yAxisS = "" then .missingParams
  else if isValidChartType requestedChartType = false then .invalidChartType
  else if isValidAggregation requestedAggregation = false then .invalidAggregation
  else
    let yAxes := splitComma yAxisS
    if (tableS :: xAxisS :: yAxes).all isValidIdentifier = false then .invalidIdentifier
    else .ok tableS xAxisS yAxes
      (buildChartQuery columnTypes tableS xAxisS yAxes requestedChartType requestedAggregation)

/-- Whether the handler answered with a 400 response. -/
def is400 : ChartDataResult → Bool
  | .ok _ _ _ _ => false
  | _ => true

/-! ## Pie-chart transform (C5, C9) -/

/-- One output slice of `transformPieChartData`. -/
structure PieSlice where
  label : String
  value : ℚ
  percentage : ℚ
deriving DecidableEq

/-- Key computation of the reduce step: `curr.x` stringified, where
`null`/`undefined` and the empty string fall back to "Unknown". -/
def pieKey (x : Option String) : String :=
  match x with
  | none => "Unknown"
  | some s => if s = "" then "Unknown" else s

/-- One step of the `reduce` accumulator `acc[key] = (acc[key] || 0) + v`,
on an insertion-ordered association list (JS object string keys keep
insertion order). -/
def upsertAdd : List (String × ℚ) → String → ℚ → List (String × ℚ)
  | [], key, v => [(key, v)]
  | (k, w) :: rest, key, v =>
      if k = key then (k, w + v) :: rest else (k, w) :: upsertAdd rest key v

/-- Step 1 of `transformPieChartData`: group and aggregate.  A datum is the
pair of `x` (already stringified, `none` for `null`/`undefined`) and `y`
(`none` when `Number(curr.y)` is not a usable number, so `|| 0` yields 0). -/
def pieAggregated (data : List (Option String × Option ℚ)) : List (String × ℚ) :=
  data.foldl (fun acc d => upsertAdd acc (pieKey d.1) (d.2.getD 0)) []

/-- Source constant `MAX_SLICES` from `transformPieChartData`. -/
def MAX_SLICES : Nat := 10

/-- Step 2 of `transformPieChartData`: sort by value descending
(`.sort(([, a], [, b]) => b - a)`). -/
def pieSortedEntries (data : List (Option String × Option ℚ)) : List (String × ℚ) :=
  List.insertionSort byValDesc (pieAggregated data)

/-- Step 3 of `transformPieChartData`: with more than `MAX_SLICES`
categories, the top `MAX_SLICES - 1` plus an "Other" entry summing the
rest. -/
def pieResult (data : List (Option String × Option ℚ)) : List (String × ℚ) :=
  if (pieSortedEntries data).length > MAX_SLICES then
    (pieSortedEntries data).take (MAX_SLICES - 1)
      ++ [("Other", (((pieSortedEntries data).drop (MAX_SLICES - 1)).map Prod.snd).sum)]
  else
    (pieSortedEntries data)

/-- Step 4 of `transformPieChartData`: the total of the result values. -/
def pieTotal (data : List (Option String × Option ℚ)) : ℚ :=
  ((pieResult data).map Prod.snd).sum

/-- Source `transformPieChartData` from `src/app/api/chart-data/route.ts`. -/
def transformPieChartData (data : List (Option String × Option ℚ)) : List PieSlice :=
  (pieResult data).map (fun p => ⟨p.1, p.2, p.2 / pieTotal data * 100⟩)

/-! ## Data formatter (C8) -/

/-- The JS runtime values that can reach `formatValue` in
`src/app/api/data/route.ts`.  `vdate` carries the date's `toISOString()`
result, `vnum` an integral database number, `vbuffer` the buffer's UTF-8
decoding, and `vobj` its `JSON.stringify` result (`none` when
serialization throws) together with its `String(value)` form. -/
inductive JSValue where
  | vnull
  | vundefined
  | vdate (iso : String)
  | vnum (n : Int)
  | vstr (s : String)
  | vbool (b : Bool)
  | vbuffer (utf8 : String)
  | vobj (json : Option String) (strForm : String)
deriving DecidableEq

/-- Source `formatValue` from `src/app/api/data/route.ts` (the Data Formatter of
the spec: JSON-safe values for transport). -/
def formatValue : JSValue → JSValue
  | .vnull => .vnull
  | .vundefined => .vnull
  | .vdate iso => .vstr iso
  | .vnum n => if (toString n).length ≥ 10 then .vstr (toString n) else .vnum n
  | .vbuffer utf8 => .vstr utf8
  | .vobj json strForm => .vstr (json.getD strForm)
  | .vstr s => .vstr s
  | .vbool b => .vbool b

/-- True of the JSON-safe value shapes (null, string, number, boolean). -/
def jsonSafe : JSValue → Bool
  | .vnull => true
  | .vnum _ => true
  | .vstr _ => true
  | .vbool _ => true
  | _ => false

/-- The value mapping claim C8 describes, written from the claim's own
wording, to be compared with the transliterated `formatValue`. -/
def formatValueClaim : JSValue → JSValue
  | .vnull => .vnull
  | .vundefined => .vnull
  | .vdate iso => .vstr iso
  | .vnum n => if (toString n).length ≥ 10 then .vstr (toString n) else .vnum n
  | .vbuffer utf8 => .vstr utf8
  | .vobj (some j) _ => .vstr j
  | .vobj none strForm => .vstr strForm
  | .vstr s => .vstr s
  | .vbool b => .vbool b

/-! ## Concrete inputs used by counterexamples and witnesses -/

/-- Condition of C6: contains a character outside `[a-zA-Z0-9_]`
(note: `false` for the empty string, which has no characters). -/
def hasInvalidChar (s : String) : Bool :=
  !(s.data.all isWordChar)

/-- A table column pair with 51 distinct x categories "0".."50", one row
each. -/
def rows51 : List (String × ℚ) :=
  (List.range 51).map (fun i => (toString i, 1))

/-- A numeric x column with 100 distinct values 0, 100, 200, ...: sparse,
so `FLOOR(x / binSize)` separates every value. -/
def rows100 : List (Int × ℚ) :=
  (List.range 100).map (fun k => ((100 * k : Int), 0))

/-! ## Proof infrastructure: totality and transitivity of the orderings,
and small helper lemmas -/

/-- Totality of `charsLe`. -/
theorem charsLe_total : ∀ as bs, charsLe as bs = true ∨ charsLe bs as = true := by
  intro as
  induction as with
  | nil => intro bs; left; rfl
  | cons a as ih =>
    intro bs
    cases bs with
    | nil => right; rfl
    | cons b bs =>
      rcases Nat.lt_trichotomy a.toNat b.toNat with h | h | h
      · left; simp [charsLe, h]
      · have h1 : ¬ a.toNat < b.toNat := by omega
        have h2 : ¬ b.toNat < a.toNat := by omega
        rcases ih bs with hc | hc
        · left; simp [charsLe, h1, h2, hc]
        · right; simp [charsLe, h1, h2, hc]
      · right; simp [charsLe, h]

/-- Transitivity of `charsLe`. -/
theorem charsLe_trans : ∀ as bs cs, charsLe as bs = true → charsLe bs cs = true →
    charsLe as cs = true := by
  intro as
  induction as with
  | nil => intro bs cs _ _; rfl
  | cons a as ih =>
    intro bs cs h1 h2
    cases bs with
    | nil => simp [charsLe] at h1
    | cons b bs =>
      cases cs with
      | nil => simp [charsLe] at h2
      | cons c cs =>
        simp only [charsLe] at h1 h2 ⊢
        by_cases hab : a.toNat < b.toNat <;> by_cases hba : b.toNat < a.toNat <;>
          by_cases hbc : b.toNat < c.toNat <;> by_cases hcb : c.toNat < b.toNat <;>
          by_cases hac : a.toNat < c.toNat <;> by_cases hca : c.toNat < a.toNat <;>
          simp [hab, hba, hbc, hcb, hac, hca] at h1 h2 ⊢ <;>
          first
            | omega
            | exact ih bs cs h1 h2

instance : IsTotal (String × ℚ × Nat) bySizeDesc := ⟨fun a b => le_total b.2.2 a.2.2⟩

instance : IsTrans (String × ℚ × Nat) bySizeDesc := ⟨fun _ _ _ h1 h2 => le_trans h2 h1⟩

instance : IsTotal (String × ℚ) byXAsc := ⟨fun a b => charsLe_total a.1.data b.1.data⟩

instance : IsTrans (String × ℚ) byXAsc :=
  ⟨fun _ _ _ h1 h2 => charsLe_trans _ _ _ h1 h2⟩

instance : IsTotal (String × ℚ) byValDesc := ⟨fun a b => le_total b.2 a.2⟩

instance : IsTrans (String × ℚ) byValDesc := ⟨fun _ _ _ h1 h2 => le_trans h2 h1⟩

instance : IsTotal (String × Nat) byCountValue := by
  constructor
  intro a b
  rcases lt_trichotomy a.2 b.2 with h | h | h
  · exact Or.inr (Or.inl h)
  · rcases charsLe_total a.1.data b.1.data with h1 | h1
    · exact Or.inl (Or.inr ⟨h, h1⟩)
    · exact Or.inr (Or.inr ⟨h.symm, h1⟩)
  · exact Or.inl (Or.inl h)

instance : IsTrans (String × Nat) byCountValue := by
  constructor
  rintro a b c (h1 | ⟨h1, h1v⟩) (h2 | ⟨h2, h2v⟩)
  · exact Or.inl (lt_trans h2 h1)
  · exact Or.inl (h2 ▸ h1)
  · exact Or.inl (h1 ▸ h2)
  · exact Or.inr ⟨h1.trans h2, charsLe_trans _ _ _ h1v h2v⟩

/-- Validity characterization: `isValidIdentifier` holds exactly of nonempty all-word-character
strings. -/
theorem isValidIdentifier_eq_true_iff (s : String) :
    isValidIdentifier s = true ↔ (s ≠ "" ∧ hasInvalidChar s = false) := by
  obtain ⟨d⟩ := s
  cases d <;> simp [isValidIdentifier, hasInvalidChar, String.length, String.ext_iff]

/-! ## Claim theorems -/

/-- C1: `buildAggregatedQuery` returns the raw, un-bucketed query
(`buildChartQuery` with aggregation "none") whenever the distinct-value
count of the x-axis column is at most `MAX_DATA_POINTS = 50`, and applies
one of the three bucketings (time-bucket, numeric-bin, top-N-categorical)
only when the count exceeds 50. -/
theorem buildAggregatedQuery_threshold (columnTypes : List (String × String))
    (xTypeDb yTypeDb : Option String) (count : Nat)
    (table xAxis yAxis chartType : String) :
    (count ≤ MAX_DATA_POINTS →
        buildAggregatedQuery columnTypes xTypeDb yTypeDb count table xAxis yAxis chartType
          = buildChartQuery columnTypes table xAxis [yAxis] chartType "none")
    ∧ (MAX_DATA_POINTS < count →
        (∃ fmtLit,
            buildAggregatedQuery columnTypes xTypeDb yTypeDb count table xAxis yAxis chartType
              = temporalBucketQuery table xAxis yAxis (getColumnType yTypeDb) fmtLit)
        ∨ (∃ binSize,
            buildAggregatedQuery columnTypes xTypeDb yTypeDb count table xAxis yAxis chartType
              = numericBinQuery table xAxis yAxis (getColumnType yTypeDb) binSize)
        ∨ buildAggregatedQuery columnTypes xTypeDb yTypeDb count table xAxis yAxis chartType
            = categoricalTopQuery table xAxis yAxis (getColumnType yTypeDb)) := by
  constructor
  · intro h
    simp only [buildAggregatedQuery]
    rw [if_pos h]
  · intro h
    have hn : ¬ count ≤ MAX_DATA_POINTS := Nat.not_le.mpr h
    simp only [buildAggregatedQuery]
    rw [if_neg hn]
    by_cases ht : isTemporalType (getColumnType xTypeDb) = true
    · rw [if_pos ht]
      exact Or.inl ⟨_, rfl⟩
    · rw [if_neg ht]
      by_cases hm : isNumericType (getColumnType xTypeDb) = true
      · rw [if_pos hm]
        exact Or.inr (Or.inl ⟨_, rfl⟩)
      · rw [if_neg hm]
        exact Or.inr (Or.inr rfl)

set_option maxRecDepth 100000 in
/-- Witness for C1 at concrete inputs: distinct count 10 yields the raw
query; distinct count 60 yields a bucketed query. -/
theorem buildAggregatedQuery_threshold_witness :
    (buildAggregatedQuery [] (some "varchar") (some "int") 10 "t" "x" "y" "bar"
        = buildChartQuery [] "t" "x" ["y"] "bar" "none")
    ∧ ((∃ fmtLit,
          buildAggregatedQuery [] (some "varchar") (some "int") 60 "t" "x" "y" "bar"
            = temporalBucketQuery "t" "x" "y" (getColumnType (some "int")) fmtLit)
        ∨ (∃ binSize,
          buildAggregatedQuery [] (some "varchar") (some "int") 60 "t" "x" "y" "bar"
            = numericBinQuery "t" "x" "y" (getColumnType (some "int")) binSize)
        ∨ buildAggregatedQuery [] (some "varchar") (some "int") 60 "t" "x" "y" "bar"
            = categoricalTopQuery "t" "x" "y" (getColumnType (some "int"))) :=
  ⟨(buildAggregatedQuery_threshold [] (some "varchar") (some "int") 10
      "t" "x" "y" "bar").1 (by decide),
    (buildAggregatedQuery_threshold [] (some "varchar") (some "int") 60
      "t" "x" "y" "bar").2 (by decide)⟩

/-- C4: with a temporal x-axis column and more than 50 distinct values,
the bucketed query formats dates with DATE_FORMAT pattern %Y-%m-%d (day)
when the distinct count is at most 365, and %Y-%m (month) when it
exceeds 365. -/
theorem buildAggregatedQuery_temporal_format (columnTypes : List (String × String))
    (xTypeDb yTypeDb : Option String) (count : Nat)
    (table xAxis yAxis chartType : String)
    (h50 : MAX_DATA_POINTS < count)
    (ht : isTemporalType (getColumnType xTypeDb) = true) :
    (count ≤ 365 →
        buildAggregatedQuery columnTypes xTypeDb yTypeDb count table xAxis yAxis chartType
          = temporalBucketQuery table xAxis yAxis (getColumnType yTypeDb) "\x27%Y-%m-%d\x27")
    ∧ (365 < count →
        buildAggregatedQuery columnTypes xTypeDb yTypeDb count table xAxis yAxis chartType
          = temporalBucketQuery table xAxis yAxis (getColumnType yTypeDb) "\x27%Y-%m\x27") := by
  have hn : ¬ count ≤ MAX_DATA_POINTS := Nat.not_le.mpr h50
  constructor
  · intro h365
    have hlt : ¬ 365 < count := Nat.not_lt.mpr h365
    simp only [buildAggregatedQuery]
    rw [if_neg hn, if_pos ht, if_neg hlt, if_neg (by decide : ¬ ("DAY" = "MONTH"))]
  · intro h365
    simp only [buildAggregatedQuery]
    rw [if_neg hn, if_pos ht, if_pos h365, if_pos (rfl : ("MONTH" : String) = "MONTH")]

set_option maxRecDepth 100000 in
/-- Witness for C4: x-axis of type date; 100 distinct values bucket by
day, 400 by month. -/
theorem buildAggregatedQuery_temporal_format_witness :
    (buildAggregatedQuery [] (some "date") (some "int") 100 "t" "d" "y" "bar"
        = temporalBucketQuery "t" "d" "y" (getColumnType (some "int")) "\x27%Y-%m-%d\x27")
    ∧ (buildAggregatedQuery [] (some "date") (some "int") 400 "t" "d" "y" "bar"
        = temporalBucketQuery "t" "d" "y" (getColumnType (some "int")) "\x27%Y-%m\x27") :=
  ⟨(buildAggregatedQuery_temporal_format [] (some "date") (some "int") 100
      "t" "d" "y" "bar" (by decide) (by decide)).1 (by decide),
    (buildAggregatedQuery_temporal_format [] (some "date") (some "int") 400
      "t" "d" "y" "bar" (by decide) (by decide)).2 (by decide)⟩

/-- C10: the pie-chart query depends only on the first y-axis column:
two requests with the same table, x-axis and aggregation whose y-axis
lists agree on their first element produce the same SQL, whatever the
remaining y-axis columns and the column-type metadata are. -/
theorem buildChartQuery_pie_first_yaxis (cts1 cts2 : List (String × String))
    (table xAxis : String) (ys1 ys2 : List String) (aggregation : String)
    (h : ys1.head? = ys2.head?) :
    buildChartQuery cts1 table xAxis ys1 "pie" aggregation
      = buildChartQuery cts2 table xAxis ys2 "pie" aggregation := by
  cases ys1 <;> cases ys2 <;> simp_all [buildChartQuery, List.headD]

set_option maxRecDepth 100000 in
/-- Witness for C10: `["a", "b"]` and `["a"]` with different column-type
metadata yield the same pie SQL. -/
theorem buildChartQuery_pie_first_yaxis_witness :
    buildChartQuery [("b", "int")] "t" "x" ["a", "b"] "pie" "sum"
      = buildChartQuery [] "t" "x" ["a"] "pie" "sum" :=
  buildChartQuery_pie_first_yaxis [("b", "int")] [] "t" "x" ["a", "b"] ["a"] "sum" (by decide)

/-- C8: `formatValue` of the data route produces a JSON-safe value and
implements exactly the mapping the claim describes: null/undefined to
null, dates to their ISO string, numbers with a decimal representation
of 10 or more characters to that string and other numbers unchanged,
buffers to their UTF-8 string, other objects to their JSON serialization
(or `String` form when serialization throws), remaining primitives
unchanged. -/
theorem formatValue_json_safe :
    ∀ v, formatValue v = formatValueClaim v ∧ jsonSafe (formatValue v) = true := by
  intro v
  cases v with
  | vnull => exact ⟨rfl, rfl⟩
  | vundefined => exact ⟨rfl, rfl⟩
  | vdate iso => exact ⟨rfl, rfl⟩
  | vnum n =>
      refine ⟨rfl, ?_⟩
      simp only [formatValue]
      split <;> rfl
  | vstr s => exact ⟨rfl, rfl⟩
  | vbool b => exact ⟨rfl, rfl⟩
  | vbuffer utf8 => exact ⟨rfl, rfl⟩
  | vobj json strForm => cases json <;> exact ⟨rfl, rfl⟩


set_option maxRecDepth 1000000 in
/-- Counterexample to C6 as stated: for table "t", xAxis "x",
yAxis "a," (whose comma-split is `["a", ""]`), chart type "bar" and
aggregation "none", the handler answers 400 (invalid identifier) even
though no required parameter is missing, type and aggregation are valid,
and no name contains a character outside `[a-zA-Z0-9_]` — the empty
y-axis name has no characters at all. -/
theorem chartDataGET_400_counterexample :
    chartDataGET [] (some "t") (some "x") (some "a,") (some "bar") (some "none")
        = ChartDataResult.invalidIdentifier
    ∧ ¬ ((some "t" : Option String).getD "" = ""
          ∨ (some "x" : Option String).getD "" = ""
          ∨ (some "a," : Option String).getD "" = ""
          ∨ isValidChartType (jsOr (some "bar") "") = false
          ∨ isValidAggregation (jsOr (some "none") "none") = false
          ∨ ∃ name ∈ (some "t" : Option String).getD ""
              :: (some "x" : Option String).getD ""
              :: splitComma ((some "a," : Option String).getD ""),
              hasInvalidChar name = true) := by
  decide

/-- C6 (amended): the chart-data GET handler answers 400 iff a required
parameter is missing (absent or empty), the chart type or aggregation is
not in the allowed set, or one of table, xAxis, or the comma-separated
yAxis names is empty or contains a character outside `[a-zA-Z0-9_]`; and
on the success path every interpolated identifier passed the
`isValidIdentifier` check and the query is built from exactly those
identifiers. -/
theorem chartDataGET_400_iff (columnTypes : List (String × String))
    (table xAxis yAxis chartType aggregation : Option String) :
    (is400 (chartDataGET columnTypes table xAxis yAxis chartType aggregation) = true
      ↔ (table.getD "" = "" ∨ xAxis.getD "" = "" ∨ yAxis.getD "" = ""
          ∨ isValidChartType (jsOr chartType "") = false
          ∨ isValidAggregation (jsOr aggregation "none") = false
          ∨ ∃ name ∈ table.getD "" :: xAxis.getD "" :: splitComma (yAxis.getD ""),
              name = "" ∨ hasInvalidChar name = true))
    ∧ (∀ t x ys q,
        chartDataGET columnTypes table xAxis yAxis chartType aggregation
            = ChartDataResult.ok t x ys q →
          (∀ name ∈ t :: x :: ys, isValidIdentifier name = true)
          ∧ q = buildChartQuery columnTypes t x ys (jsOr chartType "")
                  (jsOr aggregation "none")) := by
  simp only [chartDataGET]
  split_ifs with h1 h2 h3 h4
  · refine ⟨iff_of_true rfl (by tauto), ?_⟩
    intro t x ys q h
    simp at h
  · refine ⟨iff_of_true rfl (by tauto), ?_⟩
    intro t x ys q h
    simp at h
  · refine ⟨iff_of_true rfl (by tauto), ?_⟩
    intro t x ys q h
    simp at h
  · refine ⟨iff_of_true rfl ?_, ?_⟩
    · right; right; right; right; right
      rw [List.all_eq_false] at h4
      obtain ⟨name, hmem, hbad⟩ := h4
      refine ⟨name, hmem, ?_⟩
      rcases hb : hasInvalidChar name with _ | _
      · by_cases he : name = ""
        · exact Or.inl he
        · exact absurd ((isValidIdentifier_eq_true_iff name).mpr ⟨he, hb⟩) (by simp [hbad])
      · exact Or.inr rfl
    · intro t x ys q h
      simp at h
  · refine ⟨iff_of_false (by simp [is400]) ?_, ?_⟩
    · intro hc
      rcases hc with hc | hc | hc | hc | hc | ⟨name, hmem, hbad⟩
      · exact h1 (Or.inl hc)
      · exact h1 (Or.inr (Or.inl hc))
      · exact h1 (Or.inr (Or.inr hc))
      · exact h2 hc
      · exact h3 hc
      · have hall : ∀ n ∈ table.getD "" :: xAxis.getD "" :: splitComma (yAxis.getD ""),
            isValidIdentifier n = true := by
          rw [← List.all_eq_true]
          simpa using h4
        have hv := (isValidIdentifier_eq_true_iff name).mp (hall name hmem)
        rcases hbad with hbad | hbad
        · exact hv.1 hbad
        · rw [hv.2] at hbad
          exact Bool.false_ne_true hbad
    · intro t x ys q h
      have hall : ∀ n ∈ table.getD "" :: xAxis.getD "" :: splitComma (yAxis.getD ""),
          isValidIdentifier n = true := by
        rw [← List.all_eq_true]
        simpa using h4
      obtain ⟨rfl, rfl, rfl, rfl⟩ := ChartDataResult.ok.inj h
      exact ⟨hall, rfl⟩

set_option maxRecDepth 1000000 in
/-- Witness for the amended C6: the "a," request is a 400 via the iff, and
a fully valid request reaches the query builder with validated
identifiers only. -/
theorem chartDataGET_400_iff_witness :
    is400 (chartDataGET [] (some "t") (some "x") (some "a,") (some "bar") (some "none")) = true
    ∧ (∀ name ∈ "t" :: "x" :: ["a"], isValidIdentifier name = true) :=
  ⟨(chartDataGET_400_iff [] (some "t") (some "x") (some "a,")
      (some "bar") (some "none")).1.mpr (by decide),
    ((chartDataGET_400_iff [] (some "t") (some "x") (some "a")
      (some "bar") (some "none")).2 "t" "x" ["a"]
      (buildChartQuery [] "t" "x" ["a"] "bar" "none") (by decide)).1⟩

set_option maxRecDepth 1000000 in
/-- Counterexample to C2 as stated: on a table whose x column has 51
distinct categories (one row each), the categorical bucket query returns
50 rows, none of them labeled "Other", and category "50" is dropped
entirely rather than collapsed into an "Other" group. -/
theorem categoricalTopQuery_no_other_counterexample :
    (categories rows51).length = 51
    ∧ (categoricalBucketEval false rows51).length = 50
    ∧ (categoricalBucketEval false rows51).all (fun e => e.1 ≠ "Other") = true
    ∧ ((categoricalBucketEval false rows51).map Prod.fst).contains "50" = false := by
  decide

/-- C2 (amended): with more than 50 distinct categorical x values, the
bucket query keeps the top `MAX_DATA_POINTS = 50` categories by
frequency — every returned label is an input category carrying its
aggregate over all its rows, and every returned category is at least as
frequent as every dropped one — and the remaining categories are dropped
(no "Other" group is produced). -/
theorem categoricalBucketEval_top50 (avg : Bool) (rows : List (String × ℚ)) :
    (categoricalBucketEval avg rows).length = min (categories rows).length MAX_DATA_POINTS
    ∧ (∀ lab ∈ (categoricalBucketEval avg rows).map Prod.fst,
        lab ∈ categories rows
          ∧ (lab, groupY avg rows lab) ∈ categoricalBucketEval avg rows)
    ∧ (∀ lab ∈ (categoricalBucketEval avg rows).map Prod.fst,
        ∀ c ∈ categories rows, c ∉ (categoricalBucketEval avg rows).map Prod.fst →
          groupSize rows c ≤ groupSize rows lab) := by
  have hout : categoricalBucketEval avg rows
      = List.insertionSort byXAsc
          (((List.insertionSort bySizeDesc (groupAgg avg rows)).take MAX_DATA_POINTS).map
            (fun g => (g.1, g.2.1))) := rfl
  have hmem_out : ∀ e ∈ categoricalBucketEval avg rows,
      ∃ g ∈ (List.insertionSort bySizeDesc (groupAgg avg rows)).take MAX_DATA_POINTS,
        (g.1, g.2.1) = e := by
    intro e he
    rw [hout, List.mem_insertionSort] at he
    exact List.mem_map.mp he
  refine ⟨?_, ?_, ?_⟩
  · rw [hout, List.length_insertionSort, List.length_map, List.length_take,
      List.length_insertionSort]
    unfold groupAgg
    rw [List.length_map, Nat.min_comm]
  · intro lab hlab
    obtain ⟨e, he, hfst⟩ := List.mem_map.mp hlab
    obtain ⟨g, hg, hge⟩ := hmem_out e he
    have hgG := List.mem_of_mem_take hg
    rw [List.mem_insertionSort] at hgG
    unfold groupAgg at hgG
    obtain ⟨k, hk, rfl⟩ := List.mem_map.mp hgG
    have hklab : k = lab := by rw [← hfst, ← hge]
    subst hklab
    refine ⟨hk, ?_⟩
    rw [show (k, groupY avg rows k) = e from hge]
    exact he
  · intro lab hlab c hc hnc
    obtain ⟨e, he, hfst⟩ := List.mem_map.mp hlab
    obtain ⟨g, hg, hge⟩ := hmem_out e he
    have hgG := List.mem_of_mem_take hg
    rw [List.mem_insertionSort] at hgG
    unfold groupAgg at hgG
    obtain ⟨k, hk, rfl⟩ := List.mem_map.mp hgG
    have hklab : k = lab := by rw [← hfst, ← hge]
    subst hklab
    have hgcG : (c, groupY avg rows c, groupSize rows c) ∈ groupAgg avg rows := by
      unfold groupAgg
      exact List.mem_map.mpr ⟨c, hc, rfl⟩
    have hgc_sorted : (c, groupY avg rows c, groupSize rows c)
        ∈ List.insertionSort bySizeDesc (groupAgg avg rows) :=
      (List.mem_insertionSort bySizeDesc).mpr hgcG
    have hgc_not_take : (c, groupY avg rows c, groupSize rows c)
        ∉ (List.insertionSort bySizeDesc (groupAgg avg rows)).take MAX_DATA_POINTS := by
      intro hmem
      apply hnc
      apply List.mem_map.mpr
      refine ⟨(c, groupY avg rows c), ?_, rfl⟩
      rw [hout, List.mem_insertionSort]
      exact List.mem_map.mpr ⟨_, hmem, rfl⟩
    have hgc_drop : (c, groupY avg rows c, groupSize rows c)
        ∈ (List.insertionSort bySizeDesc (groupAgg avg rows)).drop MAX_DATA_POINTS := by
      have hx := hgc_sorted
      rw [← List.take_append_drop MAX_DATA_POINTS
        (List.insertionSort bySizeDesc (groupAgg avg rows)), List.mem_append] at hx
      rcases hx with h | h
      · exact absurd h hgc_not_take
      · exact h
    have hsorted := List.sorted_insertionSort bySizeDesc (groupAgg avg rows)
    exact hsorted.rel_of_mem_take_of_mem_drop hg hgc_drop

set_option maxRecDepth 1000000 in
/-- Witness for the amended C2 on the 51-category table: category "0" is
kept, category "50" is dropped, and the kept one is at least as frequent
as the dropped one. -/
theorem categoricalBucketEval_top50_witness :
    groupSize rows51 "50" ≤ groupSize rows51 "0" :=
  (categoricalBucketEval_top50 false rows51).2.2 "0" (by decide) "50" (by decide) (by decide)

set_option maxRecDepth 1000000 in
/-- C3 evaluated at the failing input: a numeric x column with 100
distinct values spaced 100 apart.  The code picks bin size
ceil(100 / 50) = 2, and the generated `GROUP BY FLOOR(x / 2)` then
produces 100 result bins — the distinct-count-based bin size does not
bound the number of bins by MAX_DATA_POINTS = 50 (a range-based bin
size, as in `buildLineChartQuery`, would). -/
theorem numericBin_sparse_exceeds_bound :
    (distinctXs rows100).length = 100
    ∧ buildAggregatedQuery [] (some "int") (some "int") 100 "t" "x" "y" "bar"
        = numericBinQuery "t" "x" "y" "int" 2
    ∧ (numericBinGroups 2 rows100).length = 100
    ∧ ¬ (numericBinGroups 2 rows100).length ≤ MAX_DATA_POINTS := by
  decide

/-- C7: the distinct-values endpoint classifies the column as ID-like
exactly when distinct_count / total_count exceeds 0.95, answering with
the ratio and no value list; otherwise it returns the distinct non-null
values with their counts, ordered by descending count, at most 1000 of
them. -/
theorem distinctValuesGET_spec (rows : List (Option String)) :
    ((∃ r, distinctValuesGET rows = DistinctResult.idColumn r)
        ↔ (95 : ℚ) / 100 < (sqlDistinctCount rows : ℚ) / (rows.length : ℚ))
    ∧ (∀ vs tot, distinctValuesGET rows = DistinctResult.valueList vs tot →
        tot = sqlDistinctCount rows
        ∧ vs.length = min (sqlDistinctCount rows) 1000
        ∧ vs.Pairwise (fun a b => b.2 ≤ a.2)
        ∧ (∀ p ∈ vs, p.1 ∈ nonNullValues rows
            ∧ p.2 = ((nonNullValues rows).filter (fun w => w == p.1)).length)) := by
  have hmk : (mkRat (sqlDistinctCount rows) rows.length : ℚ)
      = (sqlDistinctCount rows : ℚ) / (rows.length : ℚ) := by
    rw [Rat.mkRat_eq_div]
    simp
  have hmk95 : (mkRat 95 100 : ℚ) = (95 : ℚ) / 100 := by
    rw [Rat.mkRat_eq_div]
    norm_num
  simp only [distinctValuesGET]
  split_ifs with h
  · constructor
    · exact iff_of_true ⟨_, rfl⟩ (by rw [← hmk, ← hmk95]; exact h)
    · intro vs tot hveq
      simp at hveq
  · constructor
    · apply iff_of_false
      · rintro ⟨r, hr⟩
        simp at hr
      · rw [← hmk, ← hmk95]
        exact h
    · intro vs tot hveq
      obtain ⟨hvs, htot⟩ := DistinctResult.valueList.inj hveq
      subst hvs
      subst htot
      refine ⟨rfl, ?_, ?_, ?_⟩
      · unfold distinctQueryEval
        rw [List.length_take, List.length_insertionSort]
        unfold valueCounts
        rw [List.length_map, Nat.min_comm]
        rfl
      · have hs := List.sorted_insertionSort byCountValue (valueCounts rows)
        have hp : (distinctQueryEval rows).Pairwise byCountValue :=
          List.Pairwise.sublist (List.take_sublist _ _) hs
        refine hp.imp ?_
        rintro a b (hlt | ⟨heq, _⟩)
        · exact le_of_lt hlt
        · exact le_of_eq heq.symm
      · intro p hp
        have hmem : p ∈ valueCounts rows := by
          have := List.mem_of_mem_take hp
          rwa [List.mem_insertionSort] at this
        unfold valueCounts at hmem
        obtain ⟨v, hv, rfl⟩ := List.mem_map.mp hmem
        exact ⟨List.mem_dedup.mp hv, rfl⟩

/-- Witness for C7: a 4-row column with ratio 1/2 returns the ordered
value list; a fully unique column is classified ID-like. -/
theorem distinctValuesGET_spec_witness :
    ((2 : Nat) = sqlDistinctCount [some "a", some "a", some "b", none]
      ∧ [("a", 2), ("b", 1)].Pairwise (fun a b : String × Nat => b.2 ≤ a.2))
    ∧ (∃ r, distinctValuesGET [some "a"] = DistinctResult.idColumn r) :=
  ⟨(fun h => ⟨h.1, h.2.2.1⟩)
      ((distinctValuesGET_spec [some "a", some "a", some "b", none]).2
        [("a", 2), ("b", 1)] 2 (by decide)),
    (distinctValuesGET_spec [some "a"]).1.mpr (by
      have h1 : sqlDistinctCount [some "a"] = 1 := by decide
      rw [h1]
      norm_num)⟩

/-- One `reduce` step adds its contribution to the aggregated total. -/
theorem upsertAdd_sndSum (acc : List (String × ℚ)) (key : String) (v : ℚ) :
    ((upsertAdd acc key v).map Prod.snd).sum = (acc.map Prod.snd).sum + v := by
  induction acc with
  | nil => simp [upsertAdd]
  | cons p rest ih =>
      obtain ⟨k, w⟩ := p
      by_cases h : k = key
      · simp only [upsertAdd, if_pos h, List.map_cons, List.sum_cons]
        ring
      · simp only [upsertAdd, if_neg h, List.map_cons, List.sum_cons, ih]
        ring

/-- Aggregation preserves the total of the y contributions. -/
theorem pieAggregated_sndSum (data : List (Option String × Option ℚ)) :
    ((pieAggregated data).map Prod.snd).sum = (data.map (fun d => d.2.getD 0)).sum := by
  suffices h : ∀ acc : List (String × ℚ),
      (((data.foldl (fun acc d => upsertAdd acc (pieKey d.1) (d.2.getD 0)) acc)).map
          Prod.snd).sum
        = (acc.map Prod.snd).sum + (data.map (fun d => d.2.getD 0)).sum by
    simpa using h []
  induction data with
  | nil => intro acc; simp
  | cons d rest ih =>
      intro acc
      simp only [List.foldl_cons, List.map_cons, List.sum_cons]
      rw [ih, upsertAdd_sndSum]
      ring

/-- The "Other"-collapsing step preserves the total. -/
theorem pieResult_sndSum (data : List (Option String × Option ℚ)) :
    ((pieResult data).map Prod.snd).sum = ((pieAggregated data).map Prod.snd).sum := by
  have hsum : ((pieSortedEntries data).map Prod.snd).sum
      = ((pieAggregated data).map Prod.snd).sum :=
    ((List.perm_insertionSort byValDesc (pieAggregated data)).map Prod.snd).sum_eq
  unfold pieResult
  split_ifs with h
  · rw [List.map_append, List.sum_append]
    conv_rhs => rw [← hsum,
      ← List.take_append_drop (MAX_SLICES - 1) (pieSortedEntries data)]
    rw [List.map_append, List.sum_append]
    simp
  · exact hsum

/-- Summing `v / t * 100` over a list scales the sum. -/
theorem sum_map_div_mul (l : List ℚ) (t : ℚ) :
    (l.map (fun v => v / t * 100)).sum = l.sum / t * 100 := by
  induction l with
  | nil => simp
  | cons x xs ih =>
      simp only [List.map_cons, List.sum_cons, ih]
      ring

/-- C9: `transformPieChartData` preserves the total — the output values
sum to the input sum of `Number(y) || 0` (with "Other" collapsing
included) — and when that total is positive every percentage equals
value / total * 100 and the percentages sum to 100. -/
theorem transformPieChartData_total (data : List (Option String × Option ℚ)) :
    ((transformPieChartData data).map PieSlice.value).sum
        = (data.map (fun d => d.2.getD 0)).sum
    ∧ (0 < (data.map (fun d => d.2.getD 0)).sum →
        (∀ e ∈ transformPieChartData data,
            e.percentage
              = e.value / ((transformPieChartData data).map PieSlice.value).sum * 100)
        ∧ ((transformPieChartData data).map PieSlice.percentage).sum = 100) := by
  have hv : (transformPieChartData data).map PieSlice.value
      = (pieResult data).map Prod.snd := by
    unfold transformPieChartData
    rw [List.map_map]
    rfl
  have htotsum : ((transformPieChartData data).map PieSlice.value).sum
      = pieTotal data := by
    rw [hv]
    rfl
  have hmain : ((transformPieChartData data).map PieSlice.value).sum
      = (data.map (fun d => d.2.getD 0)).sum := by
    rw [hv, pieResult_sndSum, pieAggregated_sndSum]
  refine ⟨hmain, ?_⟩
  intro hpos
  have hne : pieTotal data ≠ 0 := by
    rw [← htotsum, hmain]
    exact ne_of_gt hpos
  constructor
  · intro e he
    unfold transformPieChartData at he
    obtain ⟨p, hp, rfl⟩ := List.mem_map.mp he
    rw [htotsum]
  · have hmap : (transformPieChartData data).map PieSlice.percentage
        = ((pieResult data).map Prod.snd).map (fun v => v / pieTotal data * 100) := by
      unfold transformPieChartData
      rw [List.map_map, List.map_map]
      rfl
    rw [hmap, sum_map_div_mul]
    rw [show ((pieResult data).map Prod.snd).sum = pieTotal data from rfl]
    rw [div_self hne]
    norm_num

/-- Witness for C9 on a one-datum input with positive total. -/
theorem transformPieChartData_total_witness :
    ((transformPieChartData [(some "a", some 2)]).map PieSlice.percentage).sum = 100 :=
  ((transformPieChartData_total [(some "a", some 2)]).2 (by norm_num)).2

end ChartingApp

namespace ChartingApp

/-- C5: the pie transform emits at most `MAX_SLICES = 10` slices.  With
at most 10 distinct categories every category appears unchanged (the
output pairs are a permutation of the aggregated categories); with more,
the output is exactly the `MAX_SLICES - 1 = 9` largest categories by
aggregated value — each at least as large as every collapsed one —
followed by one "Other" entry holding the sum of the rest. -/
theorem transformPieChartData_slices (data : List (Option String × Option ℚ)) :
    (transformPieChartData data).length = min (pieAggregated data).length MAX_SLICES
    ∧ ((pieAggregated data).length ≤ MAX_SLICES →
        ((transformPieChartData data).map (fun e => (e.label, e.value))).Perm
          (pieAggregated data))
    ∧ (MAX_SLICES < (pieAggregated data).length →
        ((transformPieChartData data).map (fun e => (e.label, e.value))
            = (pieSortedEntries data).take (MAX_SLICES - 1)
              ++ [("Other",
                    (((pieSortedEntries data).drop (MAX_SLICES - 1)).map Prod.snd).sum)])
        ∧ ∀ p ∈ (pieSortedEntries data).take (MAX_SLICES - 1),
            ∀ q ∈ (pieSortedEntries data).drop (MAX_SLICES - 1), q.2 ≤ p.2) := by
  have hpair : (transformPieChartData data).map (fun e => (e.label, e.value))
      = pieResult data := by
    unfold transformPieChartData
    rw [List.map_map]
    exact List.map_id _
  have hlen_sorted : (pieSortedEntries data).length = (pieAggregated data).length :=
    List.length_insertionSort _ _
  have hlen : (transformPieChartData data).length = (pieResult data).length := by
    unfold transformPieChartData
    rw [List.length_map]
  have hms : MAX_SLICES = 10 := rfl
  refine ⟨?_, ?_, ?_⟩
  · rw [hlen]
    unfold pieResult
    split_ifs with h
    · rw [List.length_append, List.length_take, hlen_sorted]
      rw [hlen_sorted] at h
      simp only [List.length_singleton]
      omega
    · rw [hlen_sorted]
      rw [hlen_sorted] at h
      omega
  · intro hle
    rw [hpair]
    unfold pieResult
    rw [if_neg (Nat.not_lt.mpr (by rw [hlen_sorted]; exact hle))]
    exact List.perm_insertionSort byValDesc (pieAggregated data)
  · intro hgt
    refine ⟨?_, ?_⟩
    · rw [hpair]
      unfold pieResult
      rw [if_pos (by rw [hlen_sorted]; exact hgt)]
    · have hs := List.sorted_insertionSort byValDesc (pieAggregated data)
      exact fun p hp q hq => hs.rel_of_mem_take_of_mem_drop hp hq

set_option maxRecDepth 1000000 in
/-- Witness for C5: a single-category input passes through; on an
11-category input the kept first category dominates a collapsed one. -/
theorem transformPieChartData_slices_witness :
    (((transformPieChartData [(some "a", some 1)]).map
        (fun e => (e.label, e.value))).Perm (pieAggregated [(some "a", some 1)]))
    ∧ ((1 : ℚ) ≤ 1) :=
  ⟨(transformPieChartData_slices [(some "a", some 1)]).2.1 (by decide),
    ((transformPieChartData_slices
        ((List.range 11).map (fun i => (some (toString i), some 1)))).2.2
      (by decide)).2
      ("0", 1) (by decide) ("9", 1) (by decide)⟩

end ChartingApp
